import Mathlib

/-!
# Verification of the node-twitch client (src/index.js)

Shallow embedding of the TwitchApi class from src/index.js.  The class wraps
outbound HTTP calls; we model the network as explicit lists of pending
responses (one list per remote endpoint family), consumed in order.  An
exhausted list models a rejected request.  JavaScript exceptions are modelled
by an error sum type; the event-emitter and console side effects are modelled
by an explicit trace of events.

Strings are modelled with Lean String; where JavaScript indexes into a string
by code unit we work with the underlying character list (String.data).
-/

/-- JavaScript runtime failures that the code can raise.
  jsThrown models this._error(msg), i.e. "throw new Error(msg)" (line 100);
  jsTypeError models calling a non-function value;
  jsReferenceError models reading an undefined variable;
  jsNetworkError models a rejected HTTP request (the .catch handlers feed the
  rejection into this._error, so it also surfaces as a throw). -/
inductive JsError where
  | jsThrown (msg : String)
  | jsTypeError (msg : String)
  | jsReferenceError (msg : String)
  | jsNetworkError
  deriving Repr, DecidableEq

/-- Observable side effects of a run: outbound requests and emitted events. -/
inductive Ev where
  | getReq (endpoint : String)      -- a GET dispatched by _get (line 282)
  | postReq (endpoint : String)     -- a POST dispatched by _post (line 351)
  | customReq (url : String)        -- a request dispatched by customRequest (line 607)
  | validateReq                     -- the oauth2/validate call in _validate (line 239)
  | tokenReq                        -- the refresh-token grant request in _refresh (line 190)
  | appTokenReq                     -- the client-credentials request in _getAppAccessToken (line 136)
  | emitError                       -- this.emit("error", ...)
  | emitRefresh                     -- this.emit("refresh", ...)
  deriving Repr, DecidableEq

def Ev.isGet : Ev → Bool
  | .getReq _ => true
  | _ => false

def Ev.isPost : Ev → Bool
  | .postReq _ => true
  | _ => false

def Ev.isTokenReq : Ev → Bool
  | .tokenReq => true
  | _ => false

def Ev.isAppTokenReq : Ev → Bool
  | .appTokenReq => true
  | _ => false

/-- A parsed HTTP response as _get and _post see it: the status code, the
  statusMessage of the response object, the body's message field and the rest
  of the body (opaque payload). -/
structure HttpResp where
  statusCode : Nat
  statusMessage : String
  message : String
  payload : String
  deriving Repr, DecidableEq

/-- A response of the oauth2/validate endpoint as _validate reads it. -/
structure ValResp where
  statusCode : Nat
  message : String
  deriving Repr, DecidableEq

/-- A response body of the oauth2/token endpoint: access_token and
  refresh_token may be absent (undefined in JavaScript). -/
structure TokenResp where
  access_token : Option String
  refresh_token : Option String
  deriving Repr, DecidableEq

/-- The mutable instance fields of the TwitchApi class that the dispatch and
  refresh logic reads and writes (constructor, lines 49-85).  listensError
  and listensRefresh record whether a listener is registered for the
  corresponding event (this._isListeningFor, line 108). -/
structure ApiState where
  isApp : Bool
  access_token : Option String
  refresh_token : Option String
  client_id : String
  client_secret : String
  refresh_attempts : Nat
  listensError : Bool
  listensRefresh : Bool
  deriving Repr, DecidableEq

/-- The field this.base, set in the constructor (line 56) and never mutated. -/
def apiBase : String := "https://api.twitch.tv/helix"

/-- JavaScript truthiness of a possibly-undefined string: undefined and ""
  are falsy. -/
def jsTruthyStr : Option String → Bool
  | none => false
  | some s => !(s == "")

/-- JavaScript string coercion of a possibly-undefined string (String(x)):
  undefined prints as "undefined". -/
def jsStr : Option String → String
  | none => "undefined"
  | some s => s

/-! ## The JavaScript isNaN sniffer

getUsers (line 426/431) and getStreams (line 557/562) classify an id with
"isNaN(x) ? login-kind : id-kind".  For a string argument, isNaN(x) is
Number.isNaN(ToNumber(x)).  ToNumber on a string trims whitespace, maps the
empty remainder to 0, and otherwise parses the StrNumericLiteral grammar
(optionally signed decimal literal or "Infinity", or an unsigned 0x/0o/0b
integer literal); anything else is NaN.  We embed that grammar. -/

def isJsWhitespace (c : Char) : Bool :=
  c == ' ' || c == '\t' || c == '\n' || c == '\r' ||
  c == '\x0b' || c == '\x0c' || c == '\xa0'

/-- Trim JavaScript whitespace from both ends of a character list. -/
def jsTrim (l : List Char) : List Char :=
  ((l.dropWhile isJsWhitespace).reverse.dropWhile isJsWhitespace).reverse

def isHexDigitChar (c : Char) : Bool :=
  c.isDigit || ('a' ≤ c && c ≤ 'f') || ('A' ≤ c && c ≤ 'F')

/-- An ExponentPart: e or E, an optional sign, then one or more digits. -/
def isExponentPart : List Char → Bool
  | [] => false
  | c :: rest =>
    (c == 'e' || c == 'E') &&
    (match rest with
     | [] => false
     | s :: t =>
       if s == '+' || s == '-' then !t.isEmpty && t.all Char.isDigit
       else !rest.isEmpty && rest.all Char.isDigit)

def isOptExponent (l : List Char) : Bool :=
  l.isEmpty || isExponentPart l

/-- StrUnsignedDecimalLiteral: "Infinity", or digits [. digits] [exp],
  or . digits [exp]. -/
def isUnsignedDecimalLiteral (l : List Char) : Bool :=
  (l == "Infinity".data) ||
  (let d := l.takeWhile Char.isDigit
   let r := l.dropWhile Char.isDigit
   if d.isEmpty then
     match r with
     | '.' :: r2 =>
       let d2 := r2.takeWhile Char.isDigit
       let r3 := r2.dropWhile Char.isDigit
       !d2.isEmpty && isOptExponent r3
     | _ => false
   else
     match r with
     | [] => true
     | '.' :: r2 => isOptExponent (r2.dropWhile Char.isDigit)
     | _ => isExponentPart r)

/-- StrDecimalLiteral: an optional sign then an unsigned decimal literal. -/
def isStrDecimalLiteral : List Char → Bool
  | [] => false
  | c :: rest =>
    if c == '+' || c == '-' then isUnsignedDecimalLiteral rest
    else isUnsignedDecimalLiteral (c :: rest)

/-- Recognizer for the 0x/0X, 0o/0O, 0b/0B integer literals (unsigned only). -/
def isNonDecimalIntegerLiteral : List Char → Bool
  | '0' :: c :: rest =>
    ((c == 'x' || c == 'X') && !rest.isEmpty && rest.all isHexDigitChar) ||
    ((c == 'o' || c == 'O') && !rest.isEmpty &&
      rest.all (fun d => '0' ≤ d && d ≤ '7')) ||
    ((c == 'b' || c == 'B') && !rest.isEmpty &&
      rest.all (fun d => d == '0' || d == '1'))
  | _ => false

/-- The JavaScript isNaN(s) test for a string s: true iff ToNumber(s) is NaN. -/
def jsIsNaN (s : String) : Bool :=
  let t := jsTrim s.data
  !(t.isEmpty || isStrDecimalLiteral t || isNonDecimalIntegerLiteral t)

/-! ## Query building: getUsers (lines 422-447) -/

/-- The id-type sniffer of getUsers (lines 426 and 431):
  isNaN(id) ? "login" : "id". -/
def idType (s : String) : String :=
  if jsIsNaN s then "login" else "id"

/-- Query built by getUsers for a single string id (lines 425-428). -/
def getUsersQuerySingle (ids : String) : String :=
  "?" ++ idType ids ++ "=" ++ ids

/-- Query built by getUsers for a list of ids (lines 430-438).  The separator
  test is literally ids.indexOf(id) === 0, evaluated against the whole input
  list on every iteration. -/
def getUsersQueryList (ids : List String) : String :=
  ids.foldl
    (fun q id =>
      q ++ (if ids.indexOf id == 0 then "?" else "&") ++ idType id ++ "=" ++ id)
    ""

/-- Follows the spec's words for C4: one parameter per id in input order, "?"
  for the parameter built from the first list position, "&" for every
  subsequent position. -/
def specUsersQueryTail : List String → String
  | [] => ""
  | id :: rest => "&" ++ idType id ++ "=" ++ id ++ specUsersQueryTail rest

/-- Follows the spec's words for C4 (first position gets "?"). -/
def specUsersQuery : List String → String
  | [] => ""
  | id :: rest => "?" ++ idType id ++ "=" ++ id ++ specUsersQueryTail rest

/-- What the code's fold actually produces, in recursive form: the prefix of a
  parameter is "?" exactly when its id is equal to the first element of the
  input list. -/
def actualUsersQueryFrom (first : Option String) : List String → String
  | [] => ""
  | id :: rest =>
    (if first == some id then "?" else "&") ++ idType id ++ "=" ++ id ++
      actualUsersQueryFrom first rest

/-! ## The regular expression of _get (line 287)

new RegExp(/\bValid OAuth token with/i).  The pattern starts with a word
character, so the word-boundary assertion holds exactly when the preceding
character is absent or a non-word character.  Case-insensitivity is modelled
by comparing characters through an ASCII case fold. -/

/-- Word characters of the regular-expression \b assertion: [A-Za-z0-9_]. -/
def isWordChar (c : Char) : Bool :=
  let n := c.toNat
  (48 ≤ n && n ≤ 57) || (65 ≤ n && n ≤ 90) || (97 ≤ n && n ≤ 122) || n == 95

/-- ASCII case fold on code points: upper-case letters map to lower case. -/
def lowerCode (n : Nat) : Nat :=
  if 65 ≤ n ∧ n ≤ 90 then n + 32 else n

/-- Case-insensitive character comparison (the /i flag). -/
def ciEq (a b : Char) : Bool :=
  lowerCode a.toNat == lowerCode b.toNat

/-- Case-insensitive test that pat matches at the front of the list. -/
def ciMatchFront : List Char → List Char → Bool
  | [], _ => true
  | _ :: _, [] => false
  | p :: ps, c :: cs => ciEq p c && ciMatchFront ps cs

/-- Is there a match of pat at some position of l, given the character (if
  any) immediately before l, with a word boundary just before the match? -/
def hasBoundaryMatch (pat : List Char) : Option Char → List Char → Bool
  | prev, [] =>
    (match prev with | none => true | some c => !isWordChar c) && pat.isEmpty
  | prev, c :: rest =>
    ((match prev with | none => true | some p => !isWordChar p) &&
      ciMatchFront pat (c :: rest)) ||
    hasBoundaryMatch pat (some c) rest

/-- The regexp.test(message) check for the pattern of _get line 287. -/
def validOAuthRegexTest (msg : String) : Bool :=
  hasBoundaryMatch "Valid OAuth token with".data none msg.data

/-! ## _validate (lines 228-261)

Consumes one response of the oauth2/validate endpoint.  The switch maps
status 200 to valid, anything else leaves valid at false; a body message
"missing authorization token" is thrown via this._error. -/

def jsValidate (venv : List ValResp) :
    Except JsError Bool × List ValResp × List Ev :=
  match venv with
  | [] => (.error .jsNetworkError, [], [.validateReq])
  | v :: rest =>
    let valid := v.statusCode == 200
    if v.message == "missing authorization token" then
      (.error (.jsThrown v.message), rest, [.validateReq])
    else
      (.ok valid, rest, [.validateReq])

/-! ## _getAppAccessToken (lines 117-144)

Consumes one response of the oauth2/token endpoint and returns its body. -/

def jsGetAppAccessToken (tenv : List TokenResp) :
    Except JsError TokenResp × List TokenResp × List Ev :=
  match tenv with
  | [] => (.error .jsNetworkError, [], [.appTokenReq])
  | t :: rest => (.ok t, rest, [.appTokenReq])

/-- The fatal message of _refresh line 153. -/
def refreshFatalMsg : String :=
  "Refresh attempts have failed. Use the previously logged information as help."

/-! ## _refresh (lines 151-221)

Order of operations, as in the source:
  1. if this.refresh_attempts > 1, throw (line 152);
  2. await this._validate(); if the token is still valid, return without
     refreshing (lines 174-176);
  3. app mode: fetch a client-credentials token, overwrite access_token with
     the body's access_token field, emit "refresh" unconditionally and return
     WITHOUT touching refresh_attempts (lines 178-188);
  4. user mode: send the refresh-token grant, overwrite access_token /
     refresh_token only when the corresponding body field is truthy, emit
     "refresh" only when a listener is registered, then increment
     refresh_attempts (lines 190-220). -/

def jsRefresh (st : ApiState) (venv : List ValResp) (tenv : List TokenResp) :
    Except JsError ApiState × List ValResp × List TokenResp × List Ev :=
  if st.refresh_attempts > 1 then
    (.error (.jsThrown refreshFatalMsg), venv, tenv, [])
  else
    match jsValidate venv with
    | (.error e, venv1, evs) => (.error e, venv1, tenv, evs)
    | (.ok valid, venv1, evs) =>
      if valid then
        (.ok st, venv1, tenv, evs)
      else if st.isApp then
        match jsGetAppAccessToken tenv with
        | (.error e, tenv1, evs2) => (.error e, venv1, tenv1, evs ++ evs2)
        | (.ok t, tenv1, evs2) =>
          (.ok { st with access_token := t.access_token }, venv1, tenv1,
            evs ++ evs2 ++ [.emitRefresh])
      else
        match tenv with
        | [] => (.error .jsNetworkError, venv1, [], evs ++ [.tokenReq])
        | t :: trest =>
          let st1 :=
            if jsTruthyStr t.access_token then
              { st with access_token := t.access_token }
            else st
          let st2 :=
            if jsTruthyStr t.refresh_token then
              { st1 with refresh_token := t.refresh_token }
            else st1
          let evs2 :=
            if st.listensRefresh then [Ev.tokenReq, Ev.emitRefresh]
            else [Ev.tokenReq]
          (.ok { st2 with refresh_attempts := st2.refresh_attempts + 1 },
            venv1, trest, evs ++ evs2)

/-! ## _get (lines 269-326)

Consumes one response of the api host per dispatch.  On status >= 400: if the
body message matches the Valid-OAuth regular expression it is thrown (lines
299-301) before the console.error and the conditional "error" emit; otherwise
the error is logged, emitted when a listener is registered, and then _refresh
is awaited and the SAME endpoint is fetched again (lines 317-319) — the retry
is unconditional, it happens even when _refresh returned without refreshing.
Recursion is on the list of pending api responses. -/

def jsGet (st : ApiState) (endpoint : String) (venv : List ValResp)
    (tenv : List TokenResp) :
    List HttpResp → Except JsError (HttpResp × ApiState) × List Ev
  | [] => (.error .jsNetworkError, [.getReq endpoint])
  | r :: rest =>
    if 400 ≤ r.statusCode then
      if validOAuthRegexTest r.message then
        (.error (.jsThrown r.message), [.getReq endpoint])
      else
        let evs0 :=
          if st.listensError then [Ev.getReq endpoint, Ev.emitError]
          else [Ev.getReq endpoint]
        match jsRefresh st venv tenv with
        | (.error e, _, _, revs) => (.error e, evs0 ++ revs)
        | (.ok st1, venv1, tenv1, revs) =>
          let out := jsGet st1 endpoint venv1 tenv1 rest
          (out.1, evs0 ++ revs ++ out.2)
    else
      (.ok (r, st), [.getReq endpoint])

/-! ## _post (lines 335-385)

On status >= 400 the error is logged and emitted unconditionally (line 369).
On status 401 the code executes this.refresh_token(() => { ... }) — but
refresh_token is the string field set in the constructor (line 53), not a
function, so the call raises a TypeError and nothing is re-posted. -/

def jsPost (st : ApiState) (endpoint : String) (data : String) :
    List HttpResp → Except JsError HttpResp × List Ev
  | [] => (.error .jsNetworkError, [.postReq endpoint])
  | r :: _ =>
    let evs :=
      if 400 ≤ r.statusCode then [Ev.postReq endpoint, Ev.emitError]
      else [Ev.postReq endpoint]
    if r.statusCode == 401 then
      (.error (.jsTypeError "this.refresh_token is not a function"), evs)
    else
      (.ok r, evs)

/-! ## getCurrentUser (lines 453-463) -/

/-- The message thrown by getCurrentUser in app mode (line 455). -/
def appUserMsg : String :=
  "Cannot get the current user when using an application token. Use access_token and refresh_token instead."

def jsGetCurrentUser (st : ApiState) (venv : List ValResp)
    (tenv : List TokenResp) (aenv : List HttpResp) :
    Except JsError (HttpResp × ApiState) × List Ev :=
  if st.isApp then
    (.error (.jsThrown appUserMsg), [])
  else
    jsGet st "/users" venv tenv aenv

/-! ## getUsersSubStatus (lines 508-532)

let user = await this.getCurrentUser(user_ids); user = body.data[0];
getCurrentUser receives user_ids in its callback position.  When user_ids is
truthy (any nonempty string, or any array — arrays are truthy) getCurrentUser
fires this._get("/users", callback) without awaiting it and resolves at once;
when user_ids is falsy ("") getCurrentUser awaits the full GET.  Back in
getUsersSubStatus the next statement reads the identifier body, which is not
defined in that scope: a ReferenceError is raised before the subscriptions
query is even built.  For the fire-and-forget branch we record the dispatch
of the inner GET but not its asynchronous continuation. -/

/-- The string-or-array argument shape of getUsers / getUsersSubStatus /
  getStreams channels. -/
inductive IdsArg where
  | one (s : String)
  | many (l : List String)
  deriving Repr, DecidableEq

/-- JavaScript truthiness of a string-or-array value: "" is falsy, every
  array (even empty) is truthy. -/
def idsArgTruthy : IdsArg → Bool
  | .one s => !(s == "")
  | .many _ => true

def jsGetUsersSubStatus (st : ApiState) (user_ids : IdsArg)
    (venv : List ValResp) (tenv : List TokenResp) (aenv : List HttpResp) :
    Except JsError Unit × List Ev :=
  if st.isApp then
    (.error (.jsThrown appUserMsg), [])
  else if idsArgTruthy user_ids then
    (.error (.jsReferenceError "body is not defined"), [.getReq "/users"])
  else
    match jsGet st "/users" venv tenv aenv with
    | (.error e, evs) => (.error e, evs)
    | (.ok _, evs) => (.error (.jsReferenceError "body is not defined"), evs)

/-! ## getStreams (lines 545-575) -/

/-- Modelled from the spec: methods.parseOptions lives in src/methods.js,
  which is not among the given sources.  The spec says only that the
  option/query encoder "converts a configuration mapping into a URL query
  string"; we model it as key=value pairs each followed by "&". -/
def parseOptions : List (String × String) → String
  | [] => ""
  | (k, v) :: rest => k ++ "=" ++ v ++ "&" ++ parseOptions rest

/-- The caller-supplied options object of getStreams: the channels property
  (string or array, possibly absent) plus the remaining native query options
  as a key/value map. -/
structure StreamsOptions where
  channels : Option IdsArg
  others : List (String × String)
  deriving Repr, DecidableEq

/-- The channels part of the getStreams query (lines 555-567): each channel is
  sniffed with isNaN into user_id / user_login and appended with a trailing
  ampersand. -/
def channelsQuery : IdsArg → String
  | .one s => (if jsIsNaN s then "user_login" else "user_id") ++ "=" ++ s ++ "&"
  | .many l =>
    String.join (l.map fun c =>
      (if jsIsNaN c then "user_login" else "user_id") ++ "=" ++ c ++ "&")

/-- getStreams up to the point where the endpoint string is built: returns the
  query and the caller's options object as it is left after the call.  Lines
  550-551 read options.channels into a local and then delete the property
  from the caller's object (the structure with channels := none models the
  mutated object); line 555 tests the saved local for truthiness. -/
def getStreamsQueryAndOptions (options : StreamsOptions) :
    String × StreamsOptions :=
  let channels := options.channels
  let options1 : StreamsOptions := { options with channels := none }
  let query := "?" ++ parseOptions options1.others ++
    (match channels with
     | none => ""
     | some a => if idsArgTruthy a then channelsQuery a else "")
  (query, options1)

/-! ## customRequest (lines 583-619) -/

/-- The message thrown by customRequest for a missing endpoint (line 585). -/
def customNoEndpointMsg : String :=
  "No endpoint was provided, cannot perform custom request."

/-- Models Object.assign(headers, options.headers): the caller entries overwrite
  the injected entries with the same key.  Headers are association lists with
  first-match lookup, so the surviving injected entries are kept in front. -/
def assignHeaders (base extra : List (String × String)) :
    List (String × String) :=
  base.filter (fun kv => (extra.lookup kv.1).isNone) ++ extra

/-- The injected headers of customRequest (lines 591-594). -/
def customBaseHeaders (st : ApiState) : List (String × String) :=
  [("Client-ID", st.client_id),
   ("Authorization", "Bearer " ++ jsStr st.access_token)]

/-- customRequest: validates the endpoint, normalizes the leading slash
  (endpoint[0] is the head of the character list), injects the auth headers,
  performs one request and returns the parsed body unconditionally — on
  status >= 400 the failure is only logged (line 610-613); there is no
  refresh, no retry and no "error" emit. -/
def jsCustomRequest (st : ApiState) (endpoint : String)
    (copts : List (String × String)) (aenv : List HttpResp) :
    Except JsError (String × List (String × String) × HttpResp) × List Ev :=
  if endpoint == "" then
    (.error (.jsThrown customNoEndpointMsg), [])
  else
    let ep := if endpoint.data.head? == some '/' then endpoint
              else "/" ++ endpoint
    let hdrs := assignHeaders (customBaseHeaders st) copts
    let url := apiBase ++ ep
    match aenv with
    | [] => (.error .jsNetworkError, [.customReq url])
    | r :: _ => (.ok (url, hdrs, r), [.customReq url])

/-! ## Iterated entries into the refresh path (for the lifetime claims) -/

/-- Run n successive entries into _refresh, threading state and pending
  responses; returns the final state and the accumulated trace, or none if
  some entry threw. -/
def refreshRun : Nat → ApiState → List ValResp → List TokenResp →
    Option (ApiState × List Ev)
  | 0, st, _, _ => some (st, [])
  | n + 1, st, venv, tenv =>
    match jsRefresh st venv tenv with
    | (.ok st1, venv1, tenv1, evs) =>
      match refreshRun n st1 venv1 tenv1 with
      | some (st2, evs2) => some (st2, evs ++ evs2)
      | none => none
    | (.error _, _, _, _) => none

/-! ## Concrete fixtures used by witnesses and counterexamples -/

/-- A user-mode instance fresh out of the constructor, with listeners for
  both events. -/
def stUser : ApiState :=
  { isApp := false
    access_token := some "tok"
    refresh_token := some "ref"
    client_id := "cid"
    client_secret := "sec"
    refresh_attempts := 0
    listensError := true
    listensRefresh := true }

/-- An app-mode instance. -/
def stApp : ApiState := { stUser with isApp := true }

/-- A user-mode instance whose two refresh attempts are used up. -/
def stSpent : ApiState := { stUser with refresh_attempts := 2 }

/-- A 401 api response whose message does not match the Valid-OAuth
  pattern. -/
def rspFail : HttpResp :=
  { statusCode := 401
    statusMessage := "Unauthorized"
    message := "invalid token"
    payload := "" }

/-- A successful api response. -/
def rspOk : HttpResp :=
  { statusCode := 200
    statusMessage := "OK"
    message := ""
    payload := "data" }

/-- A validate response reporting the token invalid. -/
def vInvalid : ValResp := { statusCode := 401, message := "invalid access token" }

/-- A validate response reporting the token still valid. -/
def vValid : ValResp := { statusCode := 200, message := "" }

/-- A token-grant response carrying both new tokens. -/
def tokNew : TokenResp :=
  { access_token := some "newtok", refresh_token := some "newref" }

/-! # Theorems -/

/-- C6: for every instance constructed in app mode, every call to
  getCurrentUser fails by throwing an error, regardless of its arguments and
  of the pending responses, and its trace is empty: no HTTP request is
  issued. -/
theorem getCurrentUser_appMode_throws (st : ApiState) (venv : List ValResp)
    (tenv : List TokenResp) (aenv : List HttpResp) (h : st.isApp = true) :
    jsGetCurrentUser st venv tenv aenv =
      (.error (.jsThrown appUserMsg), []) := by
  simp [jsGetCurrentUser, h]

/-- Witness for C6: the app-mode fixture satisfies the hypothesis and the
  conclusion holds there. -/
theorem getCurrentUser_appMode_throws_witness :
    stApp.isApp = true ∧
      jsGetCurrentUser stApp [] [] [] = (.error (.jsThrown appUserMsg), []) :=
  ⟨rfl, getCurrentUser_appMode_throws stApp [] [] [] rfl⟩

/-- C10: getStreams deletes the channels property from the caller's options
  object before the request is built; the caller observes channels gone and
  every other property untouched. -/
theorem getStreams_deletes_channels (options : StreamsOptions) (c : IdsArg)
    (h : options.channels = some c) :
    (getStreamsQueryAndOptions options).2.channels = none ∧
      (getStreamsQueryAndOptions options).2.others = options.others := by
  simp [getStreamsQueryAndOptions]

/-- Witness for C10 at a concrete options object. -/
theorem getStreams_deletes_channels_witness :
    ({ channels := some (.one "ninja"), others := [("first", "20")] }
        : StreamsOptions).channels = some (.one "ninja") ∧
      (getStreamsQueryAndOptions
          { channels := some (.one "ninja"), others := [("first", "20")] }).2.channels
        = none ∧
      (getStreamsQueryAndOptions
          { channels := some (.one "ninja"), others := [("first", "20")] }).2.others
        = [("first", "20")] :=
  ⟨rfl,
    (getStreams_deletes_channels
      { channels := some (.one "ninja"), others := [("first", "20")] }
      (.one "ninja") rfl).1,
    (getStreams_deletes_channels
      { channels := some (.one "ninja"), others := [("first", "20")] }
      (.one "ninja") rfl).2⟩

/-- C3: on a 401 response, _post reaches this.refresh_token(() => ...), but
  refresh_token is the string field set in the constructor, not a function:
  the call raises a TypeError, nothing is refreshed and nothing is re-posted
  (one single POST in the trace).  For other statuses at least 400 the error
  is emitted and the body is returned with no automatic retry. -/
theorem post_401_typeError (st : ApiState) (endpoint data : String)
    (r : HttpResp) (rest : List HttpResp) :
    (r.statusCode = 401 →
      jsPost st endpoint data (r :: rest) =
        (.error (.jsTypeError "this.refresh_token is not a function"),
         [.postReq endpoint, .emitError])) ∧
    (400 ≤ r.statusCode → r.statusCode ≠ 401 →
      jsPost st endpoint data (r :: rest) =
        (.ok r, [.postReq endpoint, .emitError])) := by
  constructor
  · intro h
    simp [jsPost, h]
  · intro h h401
    have : (r.statusCode == 401) = false := by simp [h401]
    simp [jsPost, h, this]

/-- Witness for C3: a concrete 401 POST raises the TypeError, a concrete 404
  POST returns the body after emitting the error. -/
theorem post_401_typeError_witness :
    rspFail.statusCode = 401 ∧
      jsPost stUser "/streams/markers" "d" [rspFail] =
        (.error (.jsTypeError "this.refresh_token is not a function"),
         [.postReq "/streams/markers", .emitError]) ∧
      400 ≤ (404 : Nat) ∧
      jsPost stUser "/x" "d" [{ rspFail with statusCode := 404 }] =
        (.ok { rspFail with statusCode := 404 }, [.postReq "/x", .emitError]) :=
  ⟨rfl,
    (post_401_typeError stUser "/streams/markers" "d" rspFail []).1 rfl,
    by decide,
    (post_401_typeError stUser "/x" "d" { rspFail with statusCode := 404 } []).2
      (by decide) (by decide)⟩

/-- C2 counterexample: a GET failing with 401 whose token the validator
  reports still valid.  No refresh happens, but contrary to the claim the
  request IS retried: two GETs are dispatched and the surfaced result is the
  second response's body, not the original failure. -/
theorem get_valid_token_counterexample :
    (jsGet stUser "/users" [vValid] [tokNew] [rspFail, rspOk]).1 =
        .ok (rspOk, stUser) ∧
      (jsGet stUser "/users" [vValid] [tokNew] [rspFail, rspOk]).2.countP
          Ev.isGet = 2 ∧
      (jsGet stUser "/users" [vValid] [tokNew] [rspFail, rspOk]).2.countP
          Ev.isTokenReq = 0 := by
  refine ⟨?_, ?_, ?_⟩ <;> rfl

/-- C2 amended: when a GET fails with status >= 400 (message not matching the
  fatal pattern) and the validator reports the token still valid (and the
  circuit breaker is not yet tripped), no token refresh is performed — the
  validate response is consumed and the token-grant responses are untouched —
  but the dispatcher retries the request unconditionally: the call's outcome
  is the outcome of re-dispatching the same endpoint, the original failure
  being only logged and emitted. -/
theorem get_valid_token_no_refresh_but_retry
    (st : ApiState) (endpoint : String) (r : HttpResp) (v : ValResp)
    (venv : List ValResp) (tenv : List TokenResp) (rest : List HttpResp)
    (hAtt : st.refresh_attempts ≤ 1)
    (h1 : 400 ≤ r.statusCode) (hrx : validOAuthRegexTest r.message = false)
    (hv : v.statusCode = 200) (hvm : v.message ≠ "missing authorization token") :
    jsGet st endpoint (v :: venv) tenv (r :: rest) =
      ((jsGet st endpoint venv tenv rest).1,
        (if st.listensError then [Ev.getReq endpoint, Ev.emitError]
         else [Ev.getReq endpoint]) ++
          [Ev.validateReq] ++ (jsGet st endpoint venv tenv rest).2) := by
  have hAtt' : ¬ st.refresh_attempts > 1 := by omega
  have hvm' : (v.message == "missing authorization token") = false := by
    simp [hvm]
  simp [jsGet, jsRefresh, jsValidate, h1, hrx, hAtt', hvm', hv]

/-- Witness for the C2 amended theorem at concrete inputs. -/
theorem get_valid_token_no_refresh_but_retry_witness :
    stUser.refresh_attempts ≤ 1 ∧ 400 ≤ rspFail.statusCode ∧
      validOAuthRegexTest rspFail.message = false ∧
      vValid.statusCode = 200 ∧
      vValid.message ≠ "missing authorization token" ∧
      jsGet stUser "/users" [vValid] [tokNew] [rspFail, rspOk] =
        ((jsGet stUser "/users" [] [tokNew] [rspOk]).1,
          (if stUser.listensError then [Ev.getReq "/users", Ev.emitError]
           else [Ev.getReq "/users"]) ++
            [Ev.validateReq] ++ (jsGet stUser "/users" [] [tokNew] [rspOk]).2) :=
  ⟨by decide, by decide, by decide, rfl, by decide,
    get_valid_token_no_refresh_but_retry stUser "/users" rspFail vValid []
      [tokNew] [rspOk] (by decide) (by decide) (by decide) rfl (by decide)⟩

/-- C1: (first part) a GET whose first response fails with status >= 400
  (message not matching the fatal pattern), whose token the validator reports
  invalid exactly once and whose retry succeeds, performs exactly one refresh
  (one token-grant request, counter moved from 0 to 1) and exactly one
  retried GET (two GET dispatches in total), returning the second response.
  (second part) once the instance's two refresh attempts are used up
  (counter at least 2), a further failing GET is fatal: the refresh path
  throws and the request is dispatched exactly once — it is not retried. -/
theorem get_refresh_circuit (st : ApiState) (endpoint : String)
    (r1 r2 : HttpResp) (v1 : ValResp) (t1 : TokenResp)
    (venv : List ValResp) (tenv : List TokenResp) (rest : List HttpResp) :
    (st.isApp = false → st.refresh_attempts = 0 →
      400 ≤ r1.statusCode → validOAuthRegexTest r1.message = false →
      v1.statusCode ≠ 200 → v1.message ≠ "missing authorization token" →
      r2.statusCode < 400 →
      (jsGet st endpoint (v1 :: venv) (t1 :: tenv) [r1, r2]).2.countP
          Ev.isGet = 2 ∧
        (jsGet st endpoint (v1 :: venv) (t1 :: tenv) [r1, r2]).2.countP
          Ev.isTokenReq = 1 ∧
        ∃ st1, (jsGet st endpoint (v1 :: venv) (t1 :: tenv) [r1, r2]).1 =
            .ok (r2, st1) ∧ st1.refresh_attempts = 1) ∧
    (2 ≤ st.refresh_attempts →
      400 ≤ r1.statusCode → validOAuthRegexTest r1.message = false →
      (jsGet st endpoint venv tenv (r1 :: rest)).1 =
          .error (.jsThrown refreshFatalMsg) ∧
        (jsGet st endpoint venv tenv (r1 :: rest)).2.countP Ev.isGet = 1 ∧
        (jsGet st endpoint venv tenv (r1 :: rest)).2.countP Ev.isTokenReq
          = 0) := by
  constructor
  · intro hApp hAtt h1 hrx hv hvm h2
    have hAtt' : ¬ st.refresh_attempts > 1 := by omega
    have hvm' : (v1.message == "missing authorization token") = false := by
      simp [hvm]
    have hv' : (v1.statusCode == 200) = false := by simp [hv]
    have h2' : ¬ 400 ≤ r2.statusCode := by omega
    by_cases hLE : st.listensError <;>
      by_cases hLR : st.listensRefresh <;>
        by_cases hta : jsTruthyStr t1.access_token <;>
          by_cases htr : jsTruthyStr t1.refresh_token <;>
            simp [jsGet, jsRefresh, jsValidate, h1, hrx, hApp, hAtt, hAtt',
              hvm', hv', h2', hLE, hLR, hta, htr, List.countP_cons, Ev.isGet,
              Ev.isTokenReq] <;>
            exact ⟨_, rfl, rfl⟩
  · intro hAtt h1 hrx
    have hAtt' : st.refresh_attempts > 1 := by omega
    by_cases hLE : st.listensError <;>
      simp [jsGet, jsRefresh, h1, hrx, hAtt', hLE, List.countP_cons,
        Ev.isGet, Ev.isTokenReq]

/-- Witness for C1: both parts instantiated at concrete inputs — a fresh
  user-mode instance whose failing GET refreshes once and retries once, and
  a spent instance whose failing GET throws without a retry. -/
theorem get_refresh_circuit_witness :
    (stUser.isApp = false ∧ stUser.refresh_attempts = 0 ∧
      400 ≤ rspFail.statusCode ∧ validOAuthRegexTest rspFail.message = false ∧
      vInvalid.statusCode ≠ 200 ∧
      vInvalid.message ≠ "missing authorization token" ∧
      rspOk.statusCode < 400 ∧
      (jsGet stUser "/users" [vInvalid] [tokNew] [rspFail, rspOk]).2.countP
          Ev.isGet = 2 ∧
        (jsGet stUser "/users" [vInvalid] [tokNew] [rspFail, rspOk]).2.countP
          Ev.isTokenReq = 1 ∧
        ∃ st1, (jsGet stUser "/users" [vInvalid] [tokNew] [rspFail, rspOk]).1
            = .ok (rspOk, st1) ∧ st1.refresh_attempts = 1) ∧
    (2 ≤ stSpent.refresh_attempts ∧
      (jsGet stSpent "/users" [vInvalid] [tokNew] [rspFail, rspOk]).1 =
          .error (.jsThrown refreshFatalMsg) ∧
        (jsGet stSpent "/users" [vInvalid] [tokNew] [rspFail, rspOk]).2.countP
          Ev.isGet = 1 ∧
        (jsGet stSpent "/users" [vInvalid] [tokNew] [rspFail, rspOk]).2.countP
          Ev.isTokenReq = 0) :=
  ⟨⟨rfl, rfl, by decide, by decide, by decide, by decide, by decide,
    (get_refresh_circuit stUser "/users" rspFail rspOk vInvalid tokNew [] []
        [rspOk]).1
      rfl rfl (by decide) (by decide) (by decide) (by decide) (by decide)⟩,
   ⟨by decide,
    (get_refresh_circuit stSpent "/users" rspFail rspOk vInvalid tokNew
        [vInvalid] [tokNew] [rspOk]).2
      (by decide) (by decide) (by decide)⟩⟩

/-- Exhaustive shape of a successful entry into the refresh path: either the
  counter is untouched and no refresh-token grant was sent (valid token, or
  app-mode client-credentials refresh), or the counter moved up by exactly
  one, a refresh-token grant was sent, and the instance is in user mode. -/
theorem jsRefresh_ok_cases (st : ApiState) (venv : List ValResp)
    (tenv : List TokenResp) (st1 : ApiState) (venv1 : List ValResp)
    (tenv1 : List TokenResp) (evs : List Ev)
    (h : jsRefresh st venv tenv = (.ok st1, venv1, tenv1, evs)) :
    (st1.refresh_attempts = st.refresh_attempts ∧ Ev.tokenReq ∉ evs) ∨
    (st1.refresh_attempts = st.refresh_attempts + 1 ∧ Ev.tokenReq ∈ evs ∧
      st.isApp = false) := by
  by_cases hgt : st.refresh_attempts > 1
  · simp [jsRefresh, hgt] at h
  · rcases venv with _ | ⟨v, vrest⟩
    · simp [jsRefresh, jsValidate, hgt] at h
    · by_cases hm : v.message == "missing authorization token"
      · simp [jsRefresh, jsValidate, hgt, hm] at h
      · by_cases hvd : v.statusCode == 200
        · simp [jsRefresh, jsValidate, hgt, hm, hvd] at h
          left
          obtain ⟨h1, _, _, h4⟩ := h
          subst h1
          simp [← h4]
        · by_cases hApp : st.isApp
          · rcases tenv with _ | ⟨t, trest⟩
            · simp [jsRefresh, jsValidate, jsGetAppAccessToken, hgt, hm,
                hvd, hApp] at h
            · simp [jsRefresh, jsValidate, jsGetAppAccessToken, hgt, hm,
                hvd, hApp] at h
              left
              obtain ⟨h1, _, _, h4⟩ := h
              subst h1
              simp [← h4]
          · rcases tenv with _ | ⟨t, trest⟩
            · simp [jsRefresh, jsValidate, hgt, hm, hvd, hApp] at h
            · right
              by_cases hta : jsTruthyStr t.access_token <;>
                by_cases htr : jsTruthyStr t.refresh_token <;>
                  by_cases hLR : st.listensRefresh <;>
                    simp [jsRefresh, jsValidate, hgt, hm, hvd, hApp, hta,
                      htr, hLR] at h <;>
                    obtain ⟨h1, _, _, h4⟩ := h <;>
                    subst h1 <;>
                    simp [← h4, hApp]

/-- C9 counterexample: an app-mode instance enters the refresh path three
  times in a row; each entry succeeds and performs a client-credentials
  refresh (three appTokenReq dispatches), no entry throws, and the counter
  still reads 0 afterwards — more than two refreshes are performed over the
  instance's lifetime without the path ever throwing. -/
theorem refresh_counter_counterexample :
    (refreshRun 3 stApp [vInvalid, vInvalid, vInvalid]
        [tokNew, tokNew, tokNew]).map (fun p => p.2.countP Ev.isAppTokenReq)
      = some 3 ∧
    (refreshRun 3 stApp [vInvalid, vInvalid, vInvalid]
        [tokNew, tokNew, tokNew]).map (fun p => p.1.refresh_attempts)
      = some 0 := by
  exact ⟨rfl, rfl⟩

/-- C9 amended: the refresh-attempt counter is never decremented or reset —
  a successful entry into the refresh path leaves it unchanged or adds
  exactly one — and it is incremented exactly when a refresh-token grant is
  sent, which happens only in user mode; whenever the counter has reached 2,
  every later entry into the refresh path throws at once.  App-mode entries
  never touch the counter, so the two-refresh lifetime bound holds only for
  user-mode (refresh-token grant) refreshes. -/
theorem refresh_counter_amended (st : ApiState) (venv : List ValResp)
    (tenv : List TokenResp) :
    (∀ st1 venv1 tenv1 evs,
        jsRefresh st venv tenv = (.ok st1, venv1, tenv1, evs) →
        (st1.refresh_attempts = st.refresh_attempts ∨
          st1.refresh_attempts = st.refresh_attempts + 1) ∧
        (st1.refresh_attempts = st.refresh_attempts + 1 ↔
          Ev.tokenReq ∈ evs)) ∧
    (2 ≤ st.refresh_attempts →
      jsRefresh st venv tenv =
        (.error (.jsThrown refreshFatalMsg), venv, tenv, [])) ∧
    (st.isApp = true →
      ∀ st1 venv1 tenv1 evs,
        jsRefresh st venv tenv = (.ok st1, venv1, tenv1, evs) →
        st1.refresh_attempts = st.refresh_attempts) := by
  refine ⟨?_, ?_, ?_⟩
  · intro st1 venv1 tenv1 evs h
    rcases jsRefresh_ok_cases st venv tenv st1 venv1 tenv1 evs h with
      ⟨h1, h2⟩ | ⟨h1, h2, _⟩
    · exact ⟨Or.inl h1, by constructor <;> intro hx <;> [omega; exact absurd hx h2]⟩
    · exact ⟨Or.inr h1, by simp [h1, h2]⟩
  · intro hAtt
    have hgt : st.refresh_attempts > 1 := by omega
    simp [jsRefresh, hgt]
  · intro hApp st1 venv1 tenv1 evs h
    rcases jsRefresh_ok_cases st venv tenv st1 venv1 tenv1 evs h with
      ⟨h1, _⟩ | ⟨_, _, h3⟩
    · exact h1
    · rw [hApp] at h3
      exact absurd h3 (by simp)

/-- Witness for the C9 amended theorem: a spent instance throws on entry; an
  app-mode entry leaves the counter untouched; a user-mode refresh moves the
  counter up by one exactly because a refresh-token grant was sent. -/
theorem refresh_counter_amended_witness :
    (2 ≤ stSpent.refresh_attempts ∧
      jsRefresh stSpent [vInvalid] [tokNew] =
        (.error (.jsThrown refreshFatalMsg), [vInvalid], [tokNew], [])) ∧
    (stApp.isApp = true ∧
      ({ stApp with access_token := some "newtok" }
          : ApiState).refresh_attempts = stApp.refresh_attempts) ∧
    (({ stUser with
        access_token := some "newtok"
        refresh_token := some "newref"
        refresh_attempts := 1 } : ApiState).refresh_attempts
        = stUser.refresh_attempts + 1 ↔
      Ev.tokenReq ∈ [Ev.validateReq, Ev.tokenReq, Ev.emitRefresh]) :=
  ⟨⟨by decide,
    (refresh_counter_amended stSpent [vInvalid] [tokNew]).2.1 (by decide)⟩,
   ⟨rfl,
    (refresh_counter_amended stApp [vInvalid] [tokNew]).2.2 rfl
      { stApp with access_token := some "newtok" } [] []
      [Ev.validateReq, Ev.appTokenReq, Ev.emitRefresh] rfl⟩,
   ((refresh_counter_amended stUser [vInvalid] [tokNew]).1
      { stUser with
        access_token := some "newtok"
        refresh_token := some "newref"
        refresh_attempts := 1 } [] []
      [Ev.validateReq, Ev.tokenReq, Ev.emitRefresh] rfl).2⟩

/-- The separator test of getUsers line 433: on a nonempty list, indexOf(id)
  is 0 exactly when id equals the first element, no matter where in the loop
  the test happens. -/
theorem indexOf_head_beq (a x : String) (t : List String) :
    ((a :: t).indexOf x == 0) = (some a == some x) := by
  by_cases h : a = x
  · subst h
    simp
  · simp [List.indexOf_cons_ne t h, h]

/-- Unfolding the getUsers fold against a fixed nonempty input list. -/
theorem getUsersFoldEq (a : String) (t : List String) :
    ∀ (l : List String) (q : String),
      List.foldl
          (fun acc id =>
            acc ++ (if (a :: t).indexOf id == 0 then "?" else "&") ++
              idType id ++ "=" ++ id) q l
        = q ++ actualUsersQueryFrom (some a) l := by
  intro l
  induction l with
  | nil => intro q; simp [actualUsersQueryFrom]
  | cons x xs ih =>
    intro q
    simp only [List.foldl_cons, ih, actualUsersQueryFrom,
      indexOf_head_beq a x t]
    simp [String.append_assoc]

/-- When the first id never recurs, the code's prefixes agree with the
  positional description. -/
theorem actualFrom_eq_specTail (a : String) :
    ∀ t : List String, a ∉ t →
      actualUsersQueryFrom (some a) t = specUsersQueryTail t := by
  intro t
  induction t with
  | nil => intro _; rfl
  | cons x xs ih =>
    intro h
    have hx : a ≠ x := fun e => h (e ▸ List.mem_cons_self a xs)
    have hxs : a ∉ xs := fun e => h (List.mem_cons_of_mem x e)
    simp [actualUsersQueryFrom, specUsersQueryTail, hx, ih hxs,
      String.append_assoc]

/-- C4 counterexample: for the list ["7", "x", "7"] the query produced by
  getUsers is "?id=7&login=x?id=7" — the parameter built from the third
  position is prefixed with "?", not "&", because its id equals the first
  element and ids.indexOf(id) is 0 there too; the spec-described query
  differs. -/
theorem getUsers_query_counterexample :
    getUsersQueryList ["7", "x", "7"] = "?id=7&login=x?id=7" ∧
      specUsersQuery ["7", "x", "7"] = "?id=7&login=x&id=7" ∧
      getUsersQueryList ["7", "x", "7"] ≠ specUsersQuery ["7", "x", "7"] := by
  refine ⟨rfl, rfl, by decide⟩

/-- C4 amended: the query has one parameter per id, in input order; a
  parameter is prefixed with "?" exactly when its id is equal to the first
  element of the list (that is when ids.indexOf(id) === 0), and with "&"
  otherwise.  When the first id does not recur later, this coincides with
  the original claim: "?" for the first position, "&" for every subsequent
  one. -/
theorem getUsers_query_amended :
    (∀ ids : List String,
      getUsersQueryList ids = actualUsersQueryFrom ids.head? ids) ∧
    (∀ (a : String) (t : List String), a ∉ t →
      getUsersQueryList (a :: t) = specUsersQuery (a :: t)) := by
  have hmain : ∀ ids : List String,
      getUsersQueryList ids = actualUsersQueryFrom ids.head? ids := by
    intro ids
    match ids with
    | [] => rfl
    | a :: t =>
      unfold getUsersQueryList
      rw [getUsersFoldEq a t (a :: t) ""]
      simp
  refine ⟨hmain, ?_⟩
  intro a t h
  rw [hmain (a :: t)]
  simp only [List.head?, actualUsersQueryFrom, specUsersQuery]
  simp [actualFrom_eq_specTail a t h, String.append_assoc]

/-- Witness for the C4 amended theorem: the general form and the
  duplicate-free form evaluated at concrete lists. -/
theorem getUsers_query_amended_witness :
    getUsersQueryList ["7", "x", "7"] =
        actualUsersQueryFrom (some "7") ["7", "x", "7"] ∧
      ("a" : String) ∉ (["b"] : List String) ∧
      getUsersQueryList ["a", "b"] = specUsersQuery ["a", "b"] :=
  ⟨getUsers_query_amended.1 ["7", "x", "7"],
   by decide,
   getUsers_query_amended.2 "a" ["b"] (by decide)⟩

/-- A JavaScript whitespace character is not a decimal digit. -/
theorem ws_not_digit {c : Char} (h : isJsWhitespace c = true) :
    c.isDigit = false := by
  unfold isJsWhitespace at h
  simp only [Bool.or_eq_true, beq_iff_eq] at h
  rcases h with (((((h | h) | h) | h) | h) | h) | h <;> subst h <;> decide

/-- A decimal digit is not JavaScript whitespace. -/
theorem digit_not_ws {c : Char} (h : c.isDigit = true) :
    isJsWhitespace c = false := by
  cases hw : isJsWhitespace c
  · rfl
  · rw [ws_not_digit hw] at h
    exact absurd h (by simp)

/-- Two characters of different digit-hood never compare equal. -/
theorem digit_beq_false {c d : Char} (h : c.isDigit = true)
    (hd : d.isDigit = false) : (c == d) = false := by
  cases he : c == d
  · rfl
  · have : c = d := by simpa using he
    subst this
    rw [h] at hd
    exact absurd hd (by simp)

/-- Trimming leaves an all-digit character list unchanged. -/
theorem jsTrim_all_digit {l : List Char} (h : l.all Char.isDigit = true) :
    jsTrim l = l := by
  have hstep : ∀ m : List Char, m.all Char.isDigit = true →
      m.dropWhile isJsWhitespace = m := by
    intro m hm
    rw [List.dropWhile_eq_self_iff]
    intro hl
    have hd : Char.isDigit m[0] = true :=
      List.all_eq_true.mp hm _ (List.getElem_mem hl)
    simp [digit_not_ws hd]
  unfold jsTrim
  rw [hstep l h]
  have hrev : l.reverse.all Char.isDigit = true := by
    rw [List.all_eq_true] at h ⊢
    intro x hx
    exact h x (List.mem_reverse.mp hx)
  rw [hstep l.reverse hrev, List.reverse_reverse]

/-- A nonempty all-digit character list is an unsigned decimal literal. -/
theorem all_digit_unsignedLiteral {c : Char} {cs : List Char}
    (h : (c :: cs).all Char.isDigit = true) :
    isUnsignedDecimalLiteral (c :: cs) = true := by
  unfold isUnsignedDecimalLiteral
  rw [List.takeWhile_eq_self_iff.mpr (by simpa using List.all_eq_true.mp h),
    List.dropWhile_eq_nil_iff.mpr (by simpa using List.all_eq_true.mp h)]
  simp

/-- C5 counterexample: "Infinity" is not a purely-numeric string, yet the
  sniffer classifies it as type "id" because JavaScript's isNaN("Infinity")
  is false; the claim that every non-purely-numeric string is classified as
  "login" fails on it. -/
theorem idType_counterexample :
    idType "Infinity" = "id" ∧
      ("Infinity" : String).data.all Char.isDigit = false := by
  exact ⟨rfl, by decide⟩

/-- C5 amended: every nonempty purely-numeric string is classified as "id",
  and a string is classified as "login" exactly when JavaScript's ToNumber
  coercion of it is NaN; strings that are not purely numeric but do coerce to
  a number — such as "Infinity", "" (which coerces to 0), signed, decimal,
  exponent and 0x/0o/0b forms — are classified as "id" as well. -/
theorem idType_amended :
    (∀ s : String, s ≠ "" → s.data.all Char.isDigit = true →
      idType s = "id") ∧
    (∀ s : String, jsIsNaN s = true → idType s = "login") ∧
    idType "Infinity" = "id" ∧ idType "" = "id" := by
  refine ⟨?_, ?_, rfl, rfl⟩
  · intro s hne hd
    have hld : s.data ≠ [] := by
      intro e
      apply hne
      cases s with
      | mk d => simp only at e; rw [e]
    obtain ⟨c, cs, hcons⟩ : ∃ c cs, s.data = c :: cs := by
      cases hl : s.data with
      | nil => exact absurd hl hld
      | cons c cs => exact ⟨c, cs, rfl⟩
    rw [hcons] at hd
    have hc : c.isDigit = true := by
      have := List.all_eq_true.mp hd c (List.mem_cons_self c cs)
      simpa using this
    have hlit : isStrDecimalLiteral (c :: cs) = true := by
      simp only [isStrDecimalLiteral]
      rw [digit_beq_false hc (by decide), digit_beq_false hc (by decide)]
      simp [all_digit_unsignedLiteral hd]
    unfold idType jsIsNaN
    rw [hcons, jsTrim_all_digit hd]
    simp [hlit]
  · intro s h
    simp [idType, h]

/-- Witness for the C5 amended theorem: "42" is purely numeric and classified
  "id"; "ninja" coerces to NaN and is classified "login". -/
theorem idType_amended_witness :
    (("42" : String) ≠ "" ∧ ("42" : String).data.all Char.isDigit = true ∧
      idType "42" = "id") ∧
    (jsIsNaN "ninja" = true ∧ idType "ninja" = "login") :=
  ⟨⟨by decide, by decide, idType_amended.1 "42" (by decide) (by decide)⟩,
   ⟨by decide, idType_amended.2.1 "ninja" (by decide)⟩⟩

/-- C7: customRequest prepends the base API URL to the endpoint, normalizing
  it to start with "/"; the headers sent are the injected Client-ID and
  bearer Authorization entries merged with the caller's (the caller's
  entries winning on key conflicts, every caller entry preserved); and for
  every response — status below 400 or not — the parsed body is returned,
  the trace holds the single request and nothing else: no token refresh, no
  retry, no error event. -/
theorem customRequest_contract (st : ApiState) (endpoint : String)
    (copts : List (String × String)) (r : HttpResp) (rest : List HttpResp)
    (h : endpoint ≠ "") :
    (∃ url,
      jsCustomRequest st endpoint copts (r :: rest)
          = (.ok (url, assignHeaders (customBaseHeaders st) copts, r),
             [.customReq url]) ∧
        ∃ ep, url = apiBase ++ ep ∧ ep.data.head? = some '/') ∧
    (copts.lookup "Client-ID" = none →
      (assignHeaders (customBaseHeaders st) copts).lookup "Client-ID"
        = some st.client_id) ∧
    (copts.lookup "Authorization" = none →
      (assignHeaders (customBaseHeaders st) copts).lookup "Authorization"
        = some ("Bearer " ++ jsStr st.access_token)) ∧
    (∀ k v, copts.lookup k = some v →
      (assignHeaders (customBaseHeaders st) copts).lookup k = some v) := by
  have hne : (endpoint == "") = false := by simp [h]
  refine ⟨?_, ?_, ?_, ?_⟩
  · by_cases hsl : endpoint.data.head? == some '/'
    · refine ⟨apiBase ++ endpoint, ?_, endpoint, rfl, ?_⟩
      · simp [jsCustomRequest, hne, hsl]
      · simpa using hsl
    · refine ⟨apiBase ++ ("/" ++ endpoint), ?_, "/" ++ endpoint, rfl, ?_⟩
      · simp only [Bool.not_eq_true] at hsl
        simp [jsCustomRequest, hne, hsl]
      · simp
  · intro hc
    simp [assignHeaders, customBaseHeaders, List.filter_cons, hc]
  · intro ha
    have hAuthCid : (("Authorization" : String) == "Client-ID") = false := by
      decide
    rcases hcid : copts.lookup "Client-ID" with _ | v <;>
      simp [assignHeaders, customBaseHeaders, List.filter_cons, ha, hcid,
        List.lookup_cons, hAuthCid]
  · intro k v hkv
    rw [assignHeaders, List.lookup_append]
    have hfil :
        (List.filter (fun kv => (copts.lookup kv.1).isNone)
          (customBaseHeaders st)).lookup k = none := by
      rw [List.lookup_eq_none_iff]
      intro p hp
      obtain ⟨_, hcond⟩ := List.mem_filter.mp hp
      by_contra hkp
      have hk : k = p.1 := by simpa using hkp
      rw [← hk, hkv] at hcond
      simp at hcond
    rw [hfil, hkv]
    rfl

/-- Witness for C7 at a concrete request whose response is a 401 failure:
  the body is returned anyway and the trace is the single dispatch. -/
theorem customRequest_contract_witness :
    ("games?id=1" : String) ≠ "" ∧
      (∃ url,
        jsCustomRequest stUser "games?id=1" [("Accept", "json")] [rspFail]
            = (.ok (url,
                assignHeaders (customBaseHeaders stUser) [("Accept", "json")],
                rspFail),
               [.customReq url]) ∧
          ∃ ep, url = apiBase ++ ep ∧ ep.data.head? = some '/') ∧
      ([("Accept", "json")] : List (String × String)).lookup "Client-ID"
          = none ∧
      (assignHeaders (customBaseHeaders stUser)
          [("Accept", "json")]).lookup "Client-ID" = some stUser.client_id :=
  ⟨by decide,
   (customRequest_contract stUser "games?id=1" [("Accept", "json")] rspFail []
      (by decide)).1,
   rfl,
   (customRequest_contract stUser "games?id=1" [("Accept", "json")] rspFail []
      (by decide)).2.1 rfl⟩

/-- The refresh path never dispatches a GET of its own. -/
theorem jsRefresh_no_getReq (st : ApiState) (venv : List ValResp)
    (tenv : List TokenResp) (ep : String) :
    Ev.getReq ep ∉ (jsRefresh st venv tenv).2.2.2 := by
  by_cases hgt : st.refresh_attempts > 1
  · simp [jsRefresh, hgt]
  · rcases venv with _ | ⟨v, vrest⟩
    · simp [jsRefresh, jsValidate, hgt]
    · by_cases hm : v.message == "missing authorization token"
      · simp [jsRefresh, jsValidate, hgt, hm]
      · by_cases hvd : v.statusCode == 200
        · simp [jsRefresh, jsValidate, hgt, hm, hvd]
        · by_cases hApp : st.isApp
          · rcases tenv with _ | ⟨t, trest⟩ <;>
              simp [jsRefresh, jsValidate, jsGetAppAccessToken, hgt, hm,
                hvd, hApp]
          · rcases tenv with _ | ⟨t, trest⟩
            · simp [jsRefresh, jsValidate, hgt, hm, hvd, hApp]
            · by_cases hLR : st.listensRefresh <;>
                simp [jsRefresh, jsValidate, hgt, hm, hvd, hApp, hLR]

/-- Every GET dispatched inside a _get call (retries included) targets the
  endpoint the call was made with. -/
theorem jsGet_getReq_endpoint (e : String) :
    ∀ (l : List HttpResp) (st : ApiState) (venv : List ValResp)
      (tenv : List TokenResp) (ep : String),
      Ev.getReq ep ∈ (jsGet st e venv tenv l).2 → ep = e := by
  intro l
  induction l with
  | nil =>
    intro st venv tenv ep hm
    simpa [jsGet] using hm
  | cons r rest ih =>
    intro st venv tenv ep hm
    by_cases h4 : 400 ≤ r.statusCode
    · by_cases hrx : validOAuthRegexTest r.message
      · simpa [jsGet, h4, hrx] using hm
      · rcases hjr : jsRefresh st venv tenv with ⟨res, venv1, tenv1, revs⟩
        have hnr := jsRefresh_no_getReq st venv tenv ep
        rw [hjr] at hnr
        simp only at hnr
        rcases res with e' | st1
        · by_cases hLE : st.listensError <;>
            simp [jsGet, h4, hrx, hjr, hLE] at hm <;>
            rcases hm with hm | hm
          · exact hm
          · exact absurd hm hnr
          · exact hm
          · exact absurd hm hnr
        · by_cases hLE : st.listensError <;>
            simp [jsGet, h4, hrx, hjr, hLE] at hm <;>
            rcases hm with hm | hm | hm
          · exact hm
          · exact absurd hm hnr
          · exact ih st1 venv1 tenv1 ep hm
          · exact hm
          · exact absurd hm hnr
          · exact ih st1 venv1 tenv1 ep hm
    · simpa [jsGet, h4] using hm

/-- C8 counterexample: on an app-mode instance getUsersSubStatus fails with
  the thrown construction error of getCurrentUser — not with a
  ReferenceError — so the claim does not hold of every call. -/
theorem getUsersSubStatus_counterexample :
    jsGetUsersSubStatus stApp (.one "123") [] [] [] =
        (.error (.jsThrown appUserMsg), []) ∧
      (jsGetUsersSubStatus stApp (.one "123") [] [] []).1 ≠
        .error (.jsReferenceError "body is not defined") := by
  refine ⟨rfl, ?_⟩
  intro hc
  rw [show (jsGetUsersSubStatus stApp (.one "123") [] [] []).1 =
      .error (.jsThrown appUserMsg) from rfl] at hc
  exact absurd hc (by simp)

/-- C8 amended: on every non-app instance the call always fails — the
  identifier body read after awaiting getCurrentUser is not defined in that
  scope — and no subscriptions request is ever dispatched (every GET in the
  trace targets /users); whenever the user_ids argument is truthy (any
  nonempty string, any array) the failure is precisely the ReferenceError,
  raised right after the fire-and-forget GET of /users.  App-mode instances
  fail even earlier, with getCurrentUser's thrown error. -/
theorem getUsersSubStatus_amended (st : ApiState) (user_ids : IdsArg)
    (venv : List ValResp) (tenv : List TokenResp) (aenv : List HttpResp)
    (h : st.isApp = false) :
    (∃ e, (jsGetUsersSubStatus st user_ids venv tenv aenv).1 = .error e) ∧
    (∀ ep, Ev.getReq ep ∈ (jsGetUsersSubStatus st user_ids venv tenv aenv).2 →
      ep = "/users") ∧
    (idsArgTruthy user_ids = true →
      jsGetUsersSubStatus st user_ids venv tenv aenv =
        (.error (.jsReferenceError "body is not defined"),
         [.getReq "/users"])) := by
  refine ⟨?_, ?_, ?_⟩
  · by_cases ht : idsArgTruthy user_ids
    · exact ⟨.jsReferenceError "body is not defined",
        by simp [jsGetUsersSubStatus, h, ht]⟩
    · rcases hg : jsGet st "/users" venv tenv aenv with ⟨res, evs⟩
      rcases res with e' | ok
      · exact ⟨e', by simp [jsGetUsersSubStatus, h, ht, hg]⟩
      · exact ⟨.jsReferenceError "body is not defined",
          by simp [jsGetUsersSubStatus, h, ht, hg]⟩
  · intro ep hm
    by_cases ht : idsArgTruthy user_ids
    · simpa [jsGetUsersSubStatus, h, ht] using hm
    · rcases hg : jsGet st "/users" venv tenv aenv with ⟨res, evs⟩
      have hend := jsGet_getReq_endpoint "/users" aenv st venv tenv ep
      rw [hg] at hend
      rcases res with e' | ok <;>
        simp [jsGetUsersSubStatus, h, ht, hg] at hm <;>
        exact hend hm
  · intro ht
    simp [jsGetUsersSubStatus, h, ht]

/-- Witness for the C8 amended theorem: a user-mode call with a truthy
  argument raises the ReferenceError after dispatching the single /users
  GET. -/
theorem getUsersSubStatus_amended_witness :
    stUser.isApp = false ∧ idsArgTruthy (.one "123") = true ∧
      jsGetUsersSubStatus stUser (.one "123") [] [] [] =
        (.error (.jsReferenceError "body is not defined"),
         [.getReq "/users"]) :=
  ⟨rfl, by decide,
   (getUsersSubStatus_amended stUser (.one "123") [] [] [] rfl).2.2
     (by decide)⟩
